import Mathlib

/-!
Verification development for the smart-meter data logger
(`src/smartmeter_logger.py` plus `keiconf_broute.py`).

The pipeline is shallowly embedded: Python dictionaries become association
lists, the bounded `queue.Queue(50)` becomes a length-bounded list, wall-clock
timestamps become opaque parameters, and the external I/O layers (CSV file,
InfluxDB client, BrouteReader) become explicit state / outcome parameters.
Python `int()` / `float()` coercions are modelled over decimal strings, with
floats represented exactly as rationals (no rounding is relevant to any
property proved here).
-/

/-- The three kinds of values the pipeline carries: Python `int`, `float`
(modelled exactly as a rational) and `str`. -/
inductive Value where
  | intV (n : Int)
  | floatV (q : Rat)
  | strV (s : String)
deriving DecidableEq, Repr

/-- A Python dictionary mapping field names to values, in insertion order. -/
abbrev Dict := List (String × Value)

/-- Fold a digit list into the natural number it denotes (empty list ↦ 0;
validity is checked separately by the callers). -/
def digitsVal (cs : List Char) : Nat :=
  cs.foldl (fun acc c => acc * 10 + (c.toNat - 48)) 0

/-- Strip surrounding whitespace, as Python numeric coercions do. -/
def stripWs (s : String) : List Char :=
  ((s.toList.dropWhile Char.isWhitespace).reverse.dropWhile Char.isWhitespace).reverse

/-- Model of Python `int(str)` on its decimal core: optional surrounding
whitespace, an optional sign, then one or more ASCII digits; anything else
raises `ValueError`, modelled as `none`. -/
def pyInt (s : String) : Option Int :=
  let cs := stripWs s
  match cs with
  | [] => none
  | c :: rest =>
    if c = '-' then
      if rest ≠ [] ∧ rest.all Char.isDigit then some (-(digitsVal rest : Int)) else none
    else if c = '+' then
      if rest ≠ [] ∧ rest.all Char.isDigit then some ((digitsVal rest : Int)) else none
    else
      if cs.all Char.isDigit then some ((digitsVal cs : Int)) else none

/-- Model of Python `float(str)` on its decimal core: optional surrounding
whitespace, an optional sign, then digits with an optional decimal point
(`"12"`, `"12."`, `".5"`, `"12.5"`); at least one digit is required.
The result is the exact rational denoted by the literal. -/
def pyFloat (s : String) : Option Rat :=
  let cs := stripWs s
  let signed : List Char × Bool :=
    match cs with
    | '-' :: rest => (rest, true)
    | '+' :: rest => (rest, false)
    | _ => (cs, false)
  let body := signed.1
  let intPart := body.takeWhile Char.isDigit
  let rest := body.dropWhile Char.isDigit
  let mag : Option Rat :=
    match rest with
    | [] => if intPart = [] then none else some ((digitsVal intPart : Rat))
    | '.' :: frac =>
      if frac.all Char.isDigit ∧ (intPart ≠ [] ∨ frac ≠ []) then
        some ((digitsVal intPart : Rat) + (digitsVal frac : Rat) / ((10 : Rat) ^ frac.length))
      else none
    | _ => none
  mag.map (fun q => if signed.2 then -q else q)

/-- Outcome of `_parse_queue_data`, distinguishing the two ways it returns
`None`: `skipped` (short data, wrong source tag, or unknown property code —
no error is logged) and `coerceFailed` (the `int()`/`float()` coercion raised,
the `except` branch logged the error and returned `None`). -/
inductive ParseOutcome where
  | parsed (d : Dict)
  | skipped
  | coerceFailed
deriving DecidableEq, Repr

/-- Embedding of `SmartMeterLogger._parse_queue_data` (lines 227–284).
`queue_data` is the `['BR', epc, value, status]` list from the queue.
Guard: fewer than three elements ⇒ `None`; destructuring
`source, epc, value, *rest` ignores everything past the third element.
A `source` other than `'BR'` ⇒ `None`.  The `elif` chain fills `parsed`
for the known codes; `int()`/`float()` failure is caught and ⇒ `None`;
an unknown code leaves `parsed` empty and `return parsed if parsed else
None` ⇒ `None`. -/
def _parse_queue_data_full (queue_data : List String) : ParseOutcome :=
  match queue_data with
  | source :: epc :: value :: _rest =>
    if source ≠ "BR" then .skipped
    else if epc = "E7" then
      match pyInt value with
      | some n => .parsed [("instant_power_w", .intV n)]
      | none => .coerceFailed
    else if epc = "E0" then
      match pyFloat value with
      | some q => .parsed [("energy_total_kwh", .floatV q)]
      | none => .coerceFailed
    else if epc = "E3" then
      match pyFloat value with
      | some q => .parsed [("energy_reverse_kwh", .floatV q)]
      | none => .coerceFailed
    else if epc = "D3" then
      match pyInt value with
      | some n => .parsed [("coefficient", .intV n)]
      | none => .coerceFailed
    else if epc = "D7" then
      match pyInt value with
      | some n => .parsed [("effective_digits", .intV n)]
      | none => .coerceFailed
    else if epc = "E1" then
      match pyInt value with
      | some n => .parsed [("unit", .intV n)]
      | none => .coerceFailed
    else if epc = "E8R" then
      match pyFloat value with
      | some q => .parsed [("instant_current_r", .floatV q)]
      | none => .coerceFailed
    else if epc = "E8T" then
      match pyFloat value with
      | some q => .parsed [("instant_current_t", .floatV q)]
      | none => .coerceFailed
    else .skipped
  | _ => .skipped

/-- `_parse_queue_data` as seen by its caller: the returned
`Optional[Dict[str, Any]]`. -/
def _parse_queue_data (queue_data : List String) : Option Dict :=
  match _parse_queue_data_full queue_data with
  | .parsed d => some d
  | .skipped => none
  | .coerceFailed => none

/-- The property codes handled by the `elif` chain of `_parse_queue_data`. -/
def knownEpc (epc : String) : Bool :=
  epc = "E7" || epc = "E0" || epc = "E3" || epc = "D3" || epc = "D7" ||
  epc = "E1" || epc = "E8R" || epc = "E8T"

example : pyInt "1500" = some 1500 := by decide
example : pyInt "abc" = none := by decide
example : pyInt "-12" = some (-12) := by decide
example : pyFloat "12.5" = some (25/2 : Rat) := by
  simp +decide [pyFloat, stripWs, digitsVal]
  norm_num
example : pyFloat "xyz" = none := by decide
example : _parse_queue_data ["BR", "E7", "1500"] = some [("instant_power_w", .intV 1500)] := by decide
example : _parse_queue_data ["BR", "D7", "3"] = some [("effective_digits", .intV 3)] := by decide
example : _parse_queue_data ["BR", "E1", "2"] = some [("unit", .intV 2)] := by decide
example : _parse_queue_data ["BR", "XX", "99"] = none := by decide
example : _parse_queue_data ["XX", "E7", "99"] = none := by decide
example : _parse_queue_data [] = none := by decide
example : _parse_queue_data_full ["BR", "E7", "abc"] = .coerceFailed := by decide

/-- Log levels used by the logger calls that matter to the claims. -/
inductive LogLevel where
  | debug
  | info
  | error
deriving DecidableEq, Repr

/-- `str()` rendering of a value into a CSV cell, as `csv.DictWriter` does.
(The rational rendering stands in for Python float `str`; no claim depends
on the digits of a float cell.) -/
def valueToCsvCell : Value → String
  | .intV n => toString n
  | .floatV q => toString q
  | .strV s => s

/-- `fieldnames = ['timestamp'] + list(data.keys())` (line 177). -/
def csvFieldnames (data : Dict) : List String :=
  "timestamp" :: data.map Prod.fst

/-- The data row `{'timestamp': now} | data`, laid out in fieldname order
(line 185–187). -/
def csvRow (now_iso : String) (data : Dict) : List String :=
  now_iso :: data.map (fun p => valueToCsvCell p.2)

/-- Result of one `_write_to_csv` call: the file content afterwards (`none`
if the file still does not exist), whether a header row was written, and the
log lines emitted.  The function always returns normally — its `try/except`
swallows I/O errors. -/
structure CsvWriteResult where
  file : Option (List (List String))
  wroteHeader : Bool
  logs : List (LogLevel × String)
deriving DecidableEq, Repr

/-- Embedding of `SmartMeterLogger._write_to_csv` (lines 167–192).
The target file (chosen from the current time by `_get_csv_filepath`) is
abstracted to its current content, `none` when it does not exist yet.
`ioFails` models the underlying `open`/write raising `Exception`: the
`except` branch logs the error and returns — the pipeline never sees a
raise.  Header row written iff the file did not exist; the open mode is
`'a'`, so existing rows are kept and the new row is appended. -/
def _write_to_csv (csvEnabled : Bool) (ioFails : Bool)
    (existing : Option (List (List String))) (now_iso : String)
    (data : Dict) : CsvWriteResult :=
  if ¬ csvEnabled then ⟨existing, false, []⟩
  else if ioFails then ⟨existing, false, [(.error, "CSV write error")]⟩
  else
    match existing with
    | none => ⟨some [csvFieldnames data, csvRow now_iso data], true, [(.debug, "wrote csv")]⟩
    | some rows => ⟨some (rows ++ [csvRow now_iso data]), false, [(.debug, "wrote csv")]⟩

/-- The `influxdb` section of the configuration dictionary. -/
structure InfluxConfig where
  enabled : Bool
  url : String
  token : String
  org : String
  bucket : String
  measurement : String
  tags : List (String × String)
deriving DecidableEq, Repr

/-- An InfluxDB field value: numeric Python values are kept numeric,
anything else is passed through `str()`. -/
inductive FieldValue where
  | fInt (n : Int)
  | fFloat (q : Rat)
  | fStr (s : String)
deriving DecidableEq, Repr

/-- `point.field(key, value)` coercion (lines 207–211): `isinstance(value,
(int, float))` keeps the number, otherwise `str(value)` is stored. -/
def fieldOf : Value → FieldValue
  | .intV n => .fInt n
  | .floatV q => .fFloat q
  | .strV s => .fStr s

/-- An InfluxDB point as built by `_write_to_influxdb`. -/
structure Point where
  measurement : String
  tags : List (String × String)
  fields : List (String × FieldValue)
  time : Nat
deriving DecidableEq, Repr

/-- Result of one `_write_to_influxdb` call: the point submitted to
`write_api.write` (`none` when skipped or when the write raised), plus logs.
Always returns normally — `try/except` swallows failures. -/
structure InfluxWriteResult where
  point : Option Point
  logs : List (LogLevel × String)
deriving DecidableEq, Repr

/-- Embedding of `SmartMeterLogger._write_to_influxdb` (lines 194–225).
`write_api` is whether `self.write_api` is set (InfluxDB initialisation
succeeded); when the sink is disabled or `write_api` is `None` the function
returns immediately — silently, before the `try` block, with no connection
attempted.  Otherwise the point carries the configured measurement, the
configured static tags (folded in by the `for` loop over
`config['influxdb']['tags']`), one field per entry of `data` (numeric kept
numeric, others via `str()`), and the `datetime.utcnow()` timestamp
(abstracted as `utcnow : Nat`).  `ioFails` models `write_api.write`
raising: logged and swallowed, nothing submitted. -/
def _write_to_influxdb (cfg : InfluxConfig) (write_api : Bool) (ioFails : Bool)
    (utcnow : Nat) (data : Dict) : InfluxWriteResult :=
  if ¬ cfg.enabled ∨ ¬ write_api then ⟨none, []⟩
  else if ioFails then ⟨none, [(.error, "InfluxDB write error")]⟩
  else
    ⟨some { measurement := cfg.measurement
            tags := cfg.tags
            fields := data.map (fun p => (p.1, fieldOf p.2))
            time := utcnow },
      [(.debug, "wrote influx")]⟩

/-- Outcomes of the external collaborators during initialisation. -/
structure Env where
  influxAvailable : Bool
  influxConnectOk : Bool
  brouteStartOk : Bool
deriving DecidableEq, Repr

/-- Embedding of `SmartMeterLogger._init_influxdb` (lines 111–132): returns
whether `self.write_api` ends up set.  Disabled sink or missing
`influxdb_client` package ⇒ `False`; an exception while constructing the
client (`influxConnectOk = false`) is caught and ⇒ `False`.  `run` ignores
this return value. -/
def _init_influxdb (cfg : InfluxConfig) (env : Env) : Bool :=
  if ¬ cfg.enabled then false
  else if ¬ env.influxAvailable then false
  else env.influxConnectOk

/-- Embedding of `SmartMeterLogger._init_broute_reader` (lines 134–157):
`create_broute_reader` plus `initialize_and_connect` are external (keilib);
their combined success is `env.brouteStartOk`, every failure path (exception
or `False` from connect) returning `False`. -/
def _init_broute_reader (env : Env) : Bool :=
  env.brouteStartOk

/-- `data_queue = queue.Queue(50)` (line 54). -/
def QUEUE_MAXSIZE : Nat := 50

/-- `self.data_queue.get(timeout=5)` (line 305). -/
def GET_TIMEOUT : Nat := 5

/-- `Queue.put` on the bounded queue: appends when below capacity; a full
queue blocks the producer, modelled as `none` (no element is ever dropped
and the bound is never exceeded). -/
def queuePush (q : List (List String)) (x : List String) : Option (List (List String)) :=
  if q.length < QUEUE_MAXSIZE then some (q ++ [x]) else none

/-- What one `data_queue.get(timeout=5)` call yields: a raw record, or
`queue.Empty` after the timeout. -/
inductive QueueEvent where
  | timeout
  | item (queue_data : List String)
deriving DecidableEq, Repr

/-- Observable events of one pass of the `run` loop, in program order:
a sink being invoked with a decoded record, a point submission reaching
`write_api.write`, and log lines. -/
inductive TraceEvent where
  | offerCsv (d : Dict)
  | offerInflux (d : Dict)
  | influxSubmit (p : Point)
  | log (lvl : LogLevel) (msg : String)
deriving DecidableEq, Repr

/-- Whether a trace event is a sink invocation. -/
def isSinkOffer : TraceEvent → Bool
  | .offerCsv _ => true
  | .offerInflux _ => true
  | _ => false

/-- Per-pass failure injection for the two sinks' I/O. -/
structure FailFlags where
  csvFails : Bool
  influxFails : Bool
deriving DecidableEq, Repr

/-- One iteration of the `while True` body (lines 301–324), abstracted over
the wall clock (`now_iso`, `utcnow`).  `queue.Empty` ⇒ `continue`, nothing
logged.  Otherwise `_parse_queue_data`; a truthy result is written to CSV
then to InfluxDB (each call catching its own errors); a falsy result only
logs at debug level.  The state threaded through is the CSV file content. -/
def loopStep (csvEnabled : Bool) (icfg : InfluxConfig) (write_api : Bool)
    (ff : FailFlags) (now_iso : String) (utcnow : Nat)
    (fs : Option (List (List String))) (ev : QueueEvent) :
    Option (List (List String)) × List TraceEvent :=
  match ev with
  | .timeout => (fs, [])
  | .item qd =>
    match _parse_queue_data_full qd with
    | .parsed d =>
      let c := _write_to_csv csvEnabled ff.csvFails fs now_iso d
      let i := _write_to_influxdb icfg write_api ff.influxFails utcnow d
      (c.file,
        [.log .info "data"] ++
        [.offerCsv d] ++ c.logs.map (fun p => .log p.1 p.2) ++
        [.offerInflux d] ++ i.logs.map (fun p => .log p.1 p.2) ++
        (match i.point with | some p => [.influxSubmit p] | none => []))
    | .skipped => (fs, [.log .debug "unknown data"])
    | .coerceFailed => (fs, [.log .error "parse error", .log .debug "unknown data"])

/-- The consumer loop over a finite schedule of queue events, ending with
the operator's `KeyboardInterrupt`. -/
def runLoop (csvEnabled : Bool) (icfg : InfluxConfig) (write_api : Bool)
    (ff : FailFlags) (now_iso : String) (utcnow : Nat) :
    Option (List (List String)) → List QueueEvent →
    Option (List (List String)) × List TraceEvent
  | fs, [] => (fs, [])
  | fs, ev :: rest =>
    let s := loopStep csvEnabled icfg write_api ff now_iso utcnow fs ev
    let r := runLoop csvEnabled icfg write_api ff now_iso utcnow s.1 rest
    (r.1, s.2 ++ r.2)

/-- What a whole `run()` produced: the process exit status and the loop's
event trace. -/
structure RunResult where
  exitCode : Nat
  trace : List TraceEvent
deriving DecidableEq, Repr

/-- Embedding of `SmartMeterLogger.run` (lines 286–329): `_init_influxdb`
(its result ignored beyond setting `write_api`), then `_init_broute_reader`
— on failure `sys.exit(1)` before the loop; then the consumer loop until
`KeyboardInterrupt`, then `_cleanup` and a normal return (exit status 0). -/
def run (csvEnabled : Bool) (icfg : InfluxConfig) (env : Env)
    (ff : FailFlags) (now_iso : String) (utcnow : Nat)
    (events : List QueueEvent) : RunResult :=
  let write_api := _init_influxdb icfg env
  if ¬ _init_broute_reader env then { exitCode := 1, trace := [] }
  else
    { exitCode := 0
      trace := (runLoop csvEnabled icfg write_api ff now_iso utcnow none events).2 }

/-- A sequence of `_write_to_csv` calls against one file, starting from
`fs`, counting how many header rows were written along the way. -/
def writeSeq (now_iso : String) (fs : Option (List (List String))) :
    List Dict → Option (List (List String)) × Nat
  | [] => (fs, 0)
  | d :: rest =>
    let r := _write_to_csv true false fs now_iso d
    let t := writeSeq now_iso r.file rest
    (t.1, (if r.wroteHeader then 1 else 0) + t.2)

/-! ## Helper lemmas -/

lemma filter_offer_map_log (l : List (LogLevel × String)) :
    (l.map (fun p => TraceEvent.log p.1 p.2)).filter isSinkOffer = [] := by
  induction l with
  | nil => rfl
  | cons a t ih => simp [isSinkOffer, ih]

lemma filter_offer_submit (o : Option Point) :
    ((match o with | some p => [TraceEvent.influxSubmit p] | none => []).filter isSinkOffer) = [] := by
  cases o <;> simp [isSinkOffer]

lemma writeSeq_some_headers (now_iso : String) :
    ∀ (ds : List Dict) (rows : List (List String)),
      (writeSeq now_iso (some rows) ds).2 = 0 := by
  intro ds
  induction ds with
  | nil => intro rows; rfl
  | cons d rest ih =>
    intro rows
    simp [writeSeq, _write_to_csv, ih]

/-! ## Claims -/

/-- C10: a queue item that is empty or has fewer than three elements decodes
to `None` (without raising — the embedding is a total function), and
elements past the third (`status` and anything further) are ignored rather
than rejected: the decode result does not depend on them. -/
theorem C10_truncated_and_extra_elements :
    (∀ qd : List String, qd.length < 3 → _parse_queue_data qd = none) ∧
    (∀ s e v : String, ∀ r₁ r₂ : List String,
       _parse_queue_data (s :: e :: v :: r₁) = _parse_queue_data (s :: e :: v :: r₂)) := by
  constructor
  · intro qd h
    match qd with
    | [] => rfl
    | [_] => rfl
    | [_, _] => rfl
    | _ :: _ :: _ :: _ => exact absurd h (by simp)
  · intro s e v r₁ r₂
    rfl

/-- Witness for C10 at concrete inputs. -/
theorem C10_truncated_and_extra_elements_witness :
    _parse_queue_data ["BR", "E7"] = none ∧
    _parse_queue_data ["BR", "E7", "1", "OK", "junk"] = _parse_queue_data ["BR", "E7", "1"] :=
  ⟨C10_truncated_and_extra_elements.1 ["BR", "E7"] (by decide),
   C10_truncated_and_extra_elements.2 "BR" "E7" "1" ["OK", "junk"] []⟩

/-- C5: a raw record whose source tag is not `'BR'` decodes to `None`; one
whose property code is outside the fixed table decodes to `None`; and when
decode returns `None` the loop pass invokes no sink and leaves the CSV file
untouched. -/
theorem C5_rejected_records_reach_no_sink :
    (∀ s e v : String, ∀ r : List String,
       s ≠ "BR" → _parse_queue_data (s :: e :: v :: r) = none) ∧
    (∀ s e v : String, ∀ r : List String,
       knownEpc e = false → _parse_queue_data (s :: e :: v :: r) = none) ∧
    (∀ (ce : Bool) (icfg : InfluxConfig) (wa : Bool) (ff : FailFlags)
       (now_iso : String) (utc : Nat) (fs : Option (List (List String)))
       (qd : List String),
       _parse_queue_data qd = none →
       ((loopStep ce icfg wa ff now_iso utc fs (.item qd)).2.filter isSinkOffer = [] ∧
        (loopStep ce icfg wa ff now_iso utc fs (.item qd)).1 = fs)) := by
  refine ⟨?_, ?_, ?_⟩
  · intro s e v r h
    simp [_parse_queue_data, _parse_queue_data_full, h]
  · intro s e v r h
    simp only [knownEpc, Bool.or_eq_false_iff, decide_eq_false_iff_not] at h
    obtain ⟨⟨⟨⟨⟨⟨⟨h1, h2⟩, h3⟩, h4⟩, h5⟩, h6⟩, h7⟩, h8⟩ := h
    simp [_parse_queue_data, _parse_queue_data_full, h1, h2, h3, h4, h5, h6, h7, h8]
  · intro ce icfg wa ff now_iso utc fs qd h
    cases hf : _parse_queue_data_full qd with
    | parsed d => simp [_parse_queue_data, hf] at h
    | skipped => simp [loopStep, hf, isSinkOffer]
    | coerceFailed => simp [loopStep, hf, isSinkOffer]

/-- Witness for C5 at concrete inputs: a non-`'BR'` record, an unknown code
`'XX'`, and a full loop pass over the unknown-code record. -/
theorem C5_rejected_records_reach_no_sink_witness :
    _parse_queue_data ["XY", "E7", "99"] = none ∧
    _parse_queue_data ["BR", "XX", "99"] = none ∧
    ((loopStep true ⟨true, "u", "t", "o", "b", "m", []⟩ true ⟨false, false⟩
        "2024-01-01" 0 none (.item ["BR", "XX", "99"])).2.filter isSinkOffer = [] ∧
     (loopStep true ⟨true, "u", "t", "o", "b", "m", []⟩ true ⟨false, false⟩
        "2024-01-01" 0 none (.item ["BR", "XX", "99"])).1 = none) :=
  ⟨C5_rejected_records_reach_no_sink.1 "XY" "E7" "99" [] (by decide),
   C5_rejected_records_reach_no_sink.2.1 "BR" "XX" "99" [] (by decide),
   C5_rejected_records_reach_no_sink.2.2 true ⟨true, "u", "t", "o", "b", "m", []⟩ true
     ⟨false, false⟩ "2024-01-01" 0 none ["BR", "XX", "99"] (by decide)⟩

/-- C9: the ingest queue is created with fixed capacity 50 and a successful
push never takes it past 50 elements (a push against a full queue blocks
instead); the consumer pops with timeout 5 seconds, and an empty-after-
timeout pass changes nothing and logs nothing — the loop just goes round
again. -/
theorem C9_queue_capacity_and_idle_timeout :
    QUEUE_MAXSIZE = 50 ∧ GET_TIMEOUT = 5 ∧
    (∀ (q : List (List String)) (x : List String) (q2 : List (List String)),
       queuePush q x = some q2 → q2.length ≤ QUEUE_MAXSIZE) ∧
    (∀ (q : List (List String)) (x : List String),
       QUEUE_MAXSIZE ≤ q.length → queuePush q x = none) ∧
    (∀ (ce : Bool) (icfg : InfluxConfig) (wa : Bool) (ff : FailFlags)
       (now_iso : String) (utc : Nat) (fs : Option (List (List String))),
       loopStep ce icfg wa ff now_iso utc fs .timeout = (fs, [])) ∧
    (∀ (ce : Bool) (icfg : InfluxConfig) (wa : Bool) (ff : FailFlags)
       (now_iso : String) (utc : Nat) (fs : Option (List (List String)))
       (evs : List QueueEvent),
       runLoop ce icfg wa ff now_iso utc fs (.timeout :: evs) =
         runLoop ce icfg wa ff now_iso utc fs evs) := by
  refine ⟨rfl, rfl, ?_, ?_, ?_, ?_⟩
  · intro q x q2 h
    unfold queuePush at h
    split at h
    · cases h
      simp
      omega
    · cases h
  · intro q x h
    unfold queuePush
    split
    · omega
    · rfl
  · intro ce icfg wa ff now_iso utc fs
    rfl
  · intro ce icfg wa ff now_iso utc fs evs
    rfl

/-- Witness for C9 at concrete inputs: a push into an empty queue stays
within capacity, and a push against a full (50-element) queue blocks. -/
theorem C9_queue_capacity_and_idle_timeout_witness :
    [["BR", "E7", "1"]].length ≤ QUEUE_MAXSIZE ∧
    queuePush (List.replicate 50 ["BR", "E7", "1"]) ["BR", "E7", "2"] = none :=
  ⟨C9_queue_capacity_and_idle_timeout.2.2.1 [] ["BR", "E7", "1"] [["BR", "E7", "1"]] (by decide),
   C9_queue_capacity_and_idle_timeout.2.2.2.1 (List.replicate 50 ["BR", "E7", "1"])
     ["BR", "E7", "2"] (by decide)⟩

/-- C7: `_write_to_csv` writes a header row only when the target file does
not yet exist; a write against an existing file appends the single data row
after the unchanged existing rows (open mode `'a'`, never truncating, even
when the write fails); and over any sequence of writes to one file, at most
one header is ever written — exactly one when the file starts absent and at
least one record is written, none when the file already exists. -/
theorem C7_header_once_append_only :
    (∀ (now_iso : String) (d : Dict),
       (_write_to_csv true false none now_iso d).wroteHeader = true ∧
       (_write_to_csv true false none now_iso d).file =
         some [csvFieldnames d, csvRow now_iso d]) ∧
    (∀ (rows : List (List String)) (now_iso : String) (d : Dict),
       (_write_to_csv true false (some rows) now_iso d).wroteHeader = false ∧
       (_write_to_csv true false (some rows) now_iso d).file =
         some (rows ++ [csvRow now_iso d])) ∧
    (∀ (ioFails : Bool) (rows : List (List String)) (now_iso : String) (d : Dict),
       ∃ extra, (_write_to_csv true ioFails (some rows) now_iso d).file =
         some (rows ++ extra)) ∧
    (∀ (now_iso : String) (rows : List (List String)) (ds : List Dict),
       (writeSeq now_iso (some rows) ds).2 = 0) ∧
    (∀ (now_iso : String) (ds : List Dict),
       (writeSeq now_iso none ds).2 ≤ 1) ∧
    (∀ (now_iso : String) (ds : List Dict),
       ds ≠ [] → (writeSeq now_iso none ds).2 = 1) := by
  refine ⟨?_, ?_, ?_, ?_, ?_, ?_⟩
  · intro now_iso d
    exact ⟨rfl, rfl⟩
  · intro rows now_iso d
    exact ⟨rfl, rfl⟩
  · intro ioFails rows now_iso d
    cases ioFails with
    | false => exact ⟨[csvRow now_iso d], rfl⟩
    | true => exact ⟨[], by simp [_write_to_csv]⟩
  · intro now_iso rows ds
    exact writeSeq_some_headers now_iso ds rows
  · intro now_iso ds
    cases ds with
    | nil => simp [writeSeq]
    | cons d rest =>
      simp [writeSeq, _write_to_csv, writeSeq_some_headers]
  · intro now_iso ds h
    cases ds with
    | nil => exact absurd rfl h
    | cons d rest =>
      simp [writeSeq, _write_to_csv, writeSeq_some_headers]

/-- Witness for C7 at concrete inputs. -/
theorem C7_header_once_append_only_witness :
    (∃ extra,
       (_write_to_csv true false (some [["timestamp", "coefficient"], ["t0", "1"]])
           "t1" [("coefficient", Value.intV 2)]).file =
         some ([["timestamp", "coefficient"], ["t0", "1"]] ++ extra)) ∧
    (writeSeq "t2" none
        [[("coefficient", Value.intV 1)], [("coefficient", Value.intV 2)],
         [("coefficient", Value.intV 3)]]).2 = 1 :=
  ⟨C7_header_once_append_only.2.2.1 false [["timestamp", "coefficient"], ["t0", "1"]]
     "t1" [("coefficient", Value.intV 2)],
   C7_header_once_append_only.2.2.2.2.2 "t2"
     [[("coefficient", Value.intV 1)], [("coefficient", Value.intV 2)],
      [("coefficient", Value.intV 3)]] (by decide)⟩

/-- C6: when the raw value's coercion raises (e.g. non-numeric text under
`E7`), `_parse_queue_data` takes the `except` branch — the failure is logged
at error level, `None` is returned instead of the exception propagating (the
embedding is total), and the loop pass leaves the file state unchanged and
processes the rest of the schedule exactly as if the bad record had not been
there. -/
theorem C6_malformed_value_recoverable (qd : List String)
    (h : _parse_queue_data_full qd = .coerceFailed) :
    _parse_queue_data qd = none ∧
    (∀ (ce : Bool) (icfg : InfluxConfig) (wa : Bool) (ff : FailFlags)
       (now_iso : String) (utc : Nat) (fs : Option (List (List String)))
       (rest : List QueueEvent),
       runLoop ce icfg wa ff now_iso utc fs (.item qd :: rest) =
         ((runLoop ce icfg wa ff now_iso utc fs rest).1,
          [TraceEvent.log .error "parse error", TraceEvent.log .debug "unknown data"] ++
            (runLoop ce icfg wa ff now_iso utc fs rest).2)) := by
  constructor
  · simp [_parse_queue_data, h]
  · intro ce icfg wa ff now_iso utc fs rest
    simp [runLoop, loopStep, h]

/-- Witness for C6: the non-numeric raw value `"abc"` under `E7` is dropped
with an error log and the following record is still decoded and dispatched. -/
theorem C6_malformed_value_recoverable_witness :
    _parse_queue_data ["BR", "E7", "abc"] = none ∧
    runLoop true ⟨true, "u", "t", "o", "b", "m", []⟩ true ⟨false, false⟩ "t0" 0 none
        [.item ["BR", "E7", "abc"], .item ["BR", "D3", "1"]] =
      ((runLoop true ⟨true, "u", "t", "o", "b", "m", []⟩ true ⟨false, false⟩ "t0" 0 none
          [.item ["BR", "D3", "1"]]).1,
       [TraceEvent.log .error "parse error", TraceEvent.log .debug "unknown data"] ++
         (runLoop true ⟨true, "u", "t", "o", "b", "m", []⟩ true ⟨false, false⟩ "t0" 0 none
            [.item ["BR", "D3", "1"]]).2) :=
  ⟨(C6_malformed_value_recoverable ["BR", "E7", "abc"] (by decide)).1,
   (C6_malformed_value_recoverable ["BR", "E7", "abc"] (by decide)).2 true
     ⟨true, "u", "t", "o", "b", "m", []⟩ true ⟨false, false⟩ "t0" 0 none
     [.item ["BR", "D3", "1"]]⟩

/-- C4: in a loop pass whose record decodes to `d`, the sink invocations in
the trace are exactly `[offerCsv d, offerInflux d]` — each sink is offered
the record exactly once, CSV first — and this holds for every combination of
sink failure flags; moreover the CSV file state after the pass is exactly
the CSV write's own result, untouched by the InfluxDB outcome (no rollback). -/
theorem C4_fanout_exactly_once (ce : Bool) (icfg : InfluxConfig) (wa : Bool)
    (ff : FailFlags) (now_iso : String) (utc : Nat)
    (fs : Option (List (List String))) (qd : List String) (d : Dict)
    (h : _parse_queue_data qd = some d) :
    (loopStep ce icfg wa ff now_iso utc fs (.item qd)).2.filter isSinkOffer =
      [.offerCsv d, .offerInflux d] ∧
    (loopStep ce icfg wa ff now_iso utc fs (.item qd)).1 =
      (_write_to_csv ce ff.csvFails fs now_iso d).file := by
  have hf : _parse_queue_data_full qd = .parsed d := by
    unfold _parse_queue_data at h
    cases hc : _parse_queue_data_full qd <;> rw [hc] at h <;> simp_all
  constructor
  · simp [loopStep, hf, isSinkOffer, List.filter_append, filter_offer_map_log,
      filter_offer_submit]
  · simp [loopStep, hf]

/-- Witness for C4: a decoded `E7` record with both sink I/O paths failing
is still offered to both sinks, CSV first. -/
theorem C4_fanout_exactly_once_witness :
    (loopStep true ⟨true, "u", "t", "o", "b", "m", []⟩ true ⟨true, true⟩ "t0" 0 none
        (.item ["BR", "E7", "1500"])).2.filter isSinkOffer =
      [.offerCsv [("instant_power_w", Value.intV 1500)],
       .offerInflux [("instant_power_w", Value.intV 1500)]] ∧
    (loopStep true ⟨true, "u", "t", "o", "b", "m", []⟩ true ⟨true, true⟩ "t0" 0 none
        (.item ["BR", "E7", "1500"])).1 =
      (_write_to_csv true true none "t0" [("instant_power_w", Value.intV 1500)]).file :=
  C4_fanout_exactly_once true ⟨true, "u", "t", "o", "b", "m", []⟩ true ⟨true, true⟩
    "t0" 0 none ["BR", "E7", "1500"] [("instant_power_w", Value.intV 1500)] (by decide)

lemma no_submit_of_no_write_api (ce : Bool) (icfg : InfluxConfig) (ff : FailFlags)
    (now_iso : String) (utc : Nat) :
    ∀ (evs : List QueueEvent) (fs : Option (List (List String))) (p : Point),
      TraceEvent.influxSubmit p ∉ (runLoop ce icfg false ff now_iso utc fs evs).2 := by
  intro evs
  induction evs with
  | nil => intro fs p; simp [runLoop]
  | cons ev rest ih =>
    intro fs p
    cases ev with
    | timeout => simpa [runLoop, loopStep] using ih fs p
    | item qd =>
      cases hf : _parse_queue_data_full qd with
      | parsed d =>
        simp only [runLoop, loopStep, hf, _write_to_influxdb]
        simp [ih]
      | skipped => simpa [runLoop, loopStep, hf] using ih fs p
      | coerceFailed => simpa [runLoop, loopStep, hf] using ih fs p

/-- C8: a BrouteReader start failure makes `run` exit with status 1 before
any loop pass; with the reader started, `run` finishes with status 0 on the
operator's interrupt whatever the schedule; and an InfluxDB initialisation
failure is not fatal — `write_api` stays unset, every subsequent
time-series write returns immediately with no point and no log (silently
skipped, no connection attempted), and no point submission ever appears in
the run's trace. -/
theorem C8_exit_codes_and_influx_nonfatal (ce : Bool) (icfg : InfluxConfig)
    (env : Env) (ff : FailFlags) (now_iso : String) (utc : Nat)
    (events : List QueueEvent) :
    (env.brouteStartOk = false →
       (run ce icfg env ff now_iso utc events).exitCode = 1 ∧
       (run ce icfg env ff now_iso utc events).trace = []) ∧
    (env.brouteStartOk = true →
       (run ce icfg env ff now_iso utc events).exitCode = 0) ∧
    (env.influxConnectOk = false →
       _init_influxdb icfg env = false ∧
       (∀ (d : Dict) (ioF : Bool) (u : Nat),
          _write_to_influxdb icfg (_init_influxdb icfg env) ioF u d = ⟨none, []⟩) ∧
       (∀ p : Point,
          TraceEvent.influxSubmit p ∉ (run ce icfg env ff now_iso utc events).trace)) := by
  refine ⟨?_, ?_, ?_⟩
  · intro h
    constructor <;> simp [run, _init_broute_reader, h]
  · intro h
    simp [run, _init_broute_reader, h]
  · intro h
    have hw : _init_influxdb icfg env = false := by
      unfold _init_influxdb
      split
      · rfl
      · split
        · rfl
        · exact h
    refine ⟨hw, ?_, ?_⟩
    · intro d ioF u
      rw [hw]
      simp [_write_to_influxdb]
    · intro p
      cases hb : env.brouteStartOk with
      | false => simp [run, _init_broute_reader, hb]
      | true =>
        simp only [run, _init_broute_reader, hb, Bool.not_true, hw]
        simpa using no_submit_of_no_write_api ce icfg ff now_iso utc events none p

/-- Witness for C8: a failed reader start exits 1 with an empty trace; a
run whose InfluxDB connection failed exits 0 on interrupt, its writes are
silently skipped, and the concrete schedule submits no point. -/
theorem C8_exit_codes_and_influx_nonfatal_witness :
    ((run true ⟨true, "u", "t", "o", "b", "m", []⟩ ⟨true, true, false⟩ ⟨false, false⟩
        "t0" 0 [.item ["BR", "E7", "1500"]]).exitCode = 1 ∧
     (run true ⟨true, "u", "t", "o", "b", "m", []⟩ ⟨true, true, false⟩ ⟨false, false⟩
        "t0" 0 [.item ["BR", "E7", "1500"]]).trace = []) ∧
    (run true ⟨true, "u", "t", "o", "b", "m", []⟩ ⟨true, false, true⟩ ⟨false, false⟩
        "t0" 0 [.item ["BR", "E7", "1500"]]).exitCode = 0 ∧
    _write_to_influxdb ⟨true, "u", "t", "o", "b", "m", []⟩
        (_init_influxdb ⟨true, "u", "t", "o", "b", "m", []⟩ ⟨true, false, true⟩) false 0
        [("instant_power_w", Value.intV 1500)] = ⟨none, []⟩ ∧
    TraceEvent.influxSubmit ⟨"m", [], [], 0⟩ ∉
      (run true ⟨true, "u", "t", "o", "b", "m", []⟩ ⟨true, false, true⟩ ⟨false, false⟩
        "t0" 0 [.item ["BR", "E7", "1500"]]).trace :=
  ⟨(C8_exit_codes_and_influx_nonfatal true ⟨true, "u", "t", "o", "b", "m", []⟩
      ⟨true, true, false⟩ ⟨false, false⟩ "t0" 0 [.item ["BR", "E7", "1500"]]).1 rfl,
   (C8_exit_codes_and_influx_nonfatal true ⟨true, "u", "t", "o", "b", "m", []⟩
      ⟨true, false, true⟩ ⟨false, false⟩ "t0" 0 [.item ["BR", "E7", "1500"]]).2.1 rfl,
   ((C8_exit_codes_and_influx_nonfatal true ⟨true, "u", "t", "o", "b", "m", []⟩
      ⟨true, false, true⟩ ⟨false, false⟩ "t0" 0 [.item ["BR", "E7", "1500"]]).2.2 rfl).2.1
      [("instant_power_w", Value.intV 1500)] false 0,
   ((C8_exit_codes_and_influx_nonfatal true ⟨true, "u", "t", "o", "b", "m", []⟩
      ⟨true, false, true⟩ ⟨false, false⟩ "t0" 0 [.item ["BR", "E7", "1500"]]).2.2 rfl).2.2
      ⟨"m", [], [], 0⟩⟩

/-- C1 counterexample: the claim's table entries `D7 → unit` and
`E1 → effective_digits` are swapped relative to the code.  Raw `"3"` under
`D7` decodes to the semantic name `effective_digits` (the code's comment:
積算電力量有効桁数), not `unit`; raw `"2"` under `E1` decodes to `unit`
(積算電力量単位), not `effective_digits`. -/
theorem C1_counterexample :
    _parse_queue_data ["BR", "D7", "3"] = some [("effective_digits", Value.intV 3)] ∧
    _parse_queue_data ["BR", "D7", "3"] ≠ some [("unit", Value.intV 3)] ∧
    _parse_queue_data ["BR", "E1", "2"] = some [("unit", Value.intV 2)] ∧
    _parse_queue_data ["BR", "E1", "2"] ≠ some [("effective_digits", Value.intV 2)] := by
  refine ⟨by decide, by decide, by decide, by decide⟩

/-- C1 as amended: for every raw record with source tag `'BR'` whose
property code is in the fixed table and whose raw value parses to the
declared type, decode returns exactly the table's semantic name and typed
value — with `D3 → coefficient` (int), `D7 → effective_digits` (int),
`E1 → unit` (int), `E7 → instant_power_w` (int), `E0 → energy_total_kwh`
(float, pass-through), `E3 → energy_reverse_kwh` (float, pass-through),
`E8R → instant_current_r` (float), `E8T → instant_current_t` (float). -/
theorem C1_decode_table (v : String) :
    (∀ n : Int, pyInt v = some n →
       _parse_queue_data ["BR", "D3", v] = some [("coefficient", .intV n)]) ∧
    (∀ n : Int, pyInt v = some n →
       _parse_queue_data ["BR", "D7", v] = some [("effective_digits", .intV n)]) ∧
    (∀ n : Int, pyInt v = some n →
       _parse_queue_data ["BR", "E1", v] = some [("unit", .intV n)]) ∧
    (∀ n : Int, pyInt v = some n →
       _parse_queue_data ["BR", "E7", v] = some [("instant_power_w", .intV n)]) ∧
    (∀ q : Rat, pyFloat v = some q →
       _parse_queue_data ["BR", "E0", v] = some [("energy_total_kwh", .floatV q)]) ∧
    (∀ q : Rat, pyFloat v = some q →
       _parse_queue_data ["BR", "E3", v] = some [("energy_reverse_kwh", .floatV q)]) ∧
    (∀ q : Rat, pyFloat v = some q →
       _parse_queue_data ["BR", "E8R", v] = some [("instant_current_r", .floatV q)]) ∧
    (∀ q : Rat, pyFloat v = some q →
       _parse_queue_data ["BR", "E8T", v] = some [("instant_current_t", .floatV q)]) := by
  refine ⟨?_, ?_, ?_, ?_, ?_, ?_, ?_, ?_⟩ <;>
    intro x h <;> simp [_parse_queue_data, _parse_queue_data_full, h]

/-- Witness for C1 as amended: the claim's own example, raw `"1500"` under
`E7` giving the integer 1500, plus a float case under `E0`. -/
theorem C1_decode_table_witness :
    _parse_queue_data ["BR", "E7", "1500"] = some [("instant_power_w", Value.intV 1500)] ∧
    _parse_queue_data ["BR", "E0", "12.5"] = some [("energy_total_kwh", Value.floatV (25/2))] :=
  ⟨(C1_decode_table "1500").2.2.2.1 1500 (by decide),
   (C1_decode_table "12.5").2.2.2.2.1 (25/2)
     (by simp +decide [pyFloat, stripWs, digitsVal]; norm_num)⟩

/-- C2 counterexample: `_write_to_csv` does not emit the claimed long
format.  For the decoded record `{'instant_power_w': 1500}` on a fresh
file, the header written is `timestamp,instant_power_w` — not
`timestamp,unitid,epc,dataid,value` — and the single data row carries the
property value in its own column. -/
theorem C2_counterexample :
    (_write_to_csv true false none "2024-01-01T00:00:00"
        [("instant_power_w", Value.intV 1500)]).file =
      some [["timestamp", "instant_power_w"], ["2024-01-01T00:00:00", "1500"]] ∧
    (_write_to_csv true false none "2024-01-01T00:00:00"
        [("instant_power_w", Value.intV 1500)]).file ≠
      some [["timestamp", "unitid", "epc", "dataid", "value"],
            ["2024-01-01T00:00:00", "1500"]] := by
  refine ⟨by decide, by decide⟩

/-- C2 as amended: `_write_to_csv` emits wide format — one row per decoded
record per call, whose columns are `timestamp` followed by one column per
property; the header it writes when the file is new is `timestamp` followed
by the property names, and an existing file just gets the data row
appended. -/
theorem C2_wide_format (now_iso : String) (d : Dict) :
    (_write_to_csv true false none now_iso d).file =
      some [("timestamp" :: d.map Prod.fst),
            (now_iso :: d.map (fun p => valueToCsvCell p.2))] ∧
    (∀ rows : List (List String),
       (_write_to_csv true false (some rows) now_iso d).file =
         some (rows ++ [now_iso :: d.map (fun p => valueToCsvCell p.2)])) := by
  exact ⟨rfl, fun rows => rfl⟩

/-- C3 counterexample: the point `_write_to_influxdb` builds for the decoded
record `{'instant_power_w': 1500}` under static tags `{location: home}`
carries only the configured static tags — no `epc` and no `unitid` tag is
added — and its field is named `instant_power_w`, not a single field named
`value`. -/
theorem C3_counterexample :
    (_write_to_influxdb ⟨true, "u", "t", "o", "b", "power", [("location", "home")]⟩
        true false 7 [("instant_power_w", Value.intV 1500)]).point =
      some { measurement := "power"
             tags := [("location", "home")]
             fields := [("instant_power_w", FieldValue.fInt 1500)]
             time := 7 } ∧
    "epc" ∉ [("location", "home")].map Prod.fst ∧
    "unitid" ∉ [("location", "home")].map Prod.fst ∧
    "value" ∉ [("instant_power_w", FieldValue.fInt 1500)].map Prod.fst := by
  refine ⟨by decide, by decide, by decide, by decide⟩

/-- C3 as amended: for every decoded record, when the time-series sink is
enabled and its client was initialised, the point is built under the
configured measurement with exactly the configured static tags (no `epc` or
`unitid` tag is added), one field per decoded property named by its semantic
name (numeric values kept numeric, non-numeric values coerced to string via
`str()`), timestamped with `datetime.utcnow()` of the write; with the sink
disabled or the client unset, no point is built. -/
theorem C3_point_shape (icfg : InfluxConfig) (wa : Bool) (utc : Nat) (d : Dict)
    (he : icfg.enabled = true) (hw : wa = true) :
    (_write_to_influxdb icfg wa false utc d).point =
      some { measurement := icfg.measurement
             tags := icfg.tags
             fields := d.map (fun p => (p.1, fieldOf p.2))
             time := utc } ∧
    (∀ n : Int, fieldOf (.intV n) = .fInt n) ∧
    (∀ q : Rat, fieldOf (.floatV q) = .fFloat q) ∧
    (∀ s : String, fieldOf (.strV s) = .fStr s) ∧
    (∀ (icfg2 : InfluxConfig) (wa2 : Bool) (ioF : Bool) (u : Nat) (d2 : Dict),
       icfg2.enabled = false ∨ wa2 = false →
       (_write_to_influxdb icfg2 wa2 ioF u d2).point = none) := by
  refine ⟨?_, fun n => rfl, fun q => rfl, fun s => rfl, ?_⟩
  · simp [_write_to_influxdb, he, hw]
  · intro icfg2 wa2 ioF u d2 h
    rcases h with h | h <;> simp [_write_to_influxdb, h]

/-- Witness for C3 as amended at a concrete configuration and record. -/
theorem C3_point_shape_witness :
    (_write_to_influxdb ⟨true, "u", "t", "o", "b", "power", [("location", "home")]⟩
        true false 7 [("instant_power_w", Value.intV 1500)]).point =
      some { measurement := "power"
             tags := [("location", "home")]
             fields := [("instant_power_w", FieldValue.fInt 1500)]
             time := 7 } :=
  (C3_point_shape ⟨true, "u", "t", "o", "b", "power", [("location", "home")]⟩
    true 7 [("instant_power_w", Value.intV 1500)] rfl rfl).1
